import Mathlib

/-
Verification of the adaptive session and device-trust security core of the
summit-seo-amplify backend.  The Python modules under
backend/app/core/{security,middleware,analytics} and backend/app/core/session.py
are shallowly embedded below: Redis is modelled as explicit key-value state
with lazy TTL expiry, datetime.utcnow as an explicit natural-number clock
(seconds), and async methods as pure state-passing functions.  External
primitives (sha256 fingerprint hashing, user-agent parsing, TOTP code
checking, geolocation) are passed in as function parameters.
-/

set_option maxRecDepth 4000

/-- Functional update of a string-indexed map, used for Redis keys and hash
fields that the code addresses individually. -/
def updFn {α : Type} (s : String → α) (k : String) (v : α) : String → α :=
  fun x => if x = k then v else s x

/-- Redis string-key store for the brute-force counters: each key holds an
integer value together with an optional absolute expiry instant (seconds).
A key whose expiry has passed behaves as absent. -/
abbrev BFStore := String → Option (Nat × Option Nat)

/-- Redis GET with lazy expiry: an expired key reads as absent. -/
def redisGet (s : BFStore) (now : Nat) (k : String) : Option Nat :=
  match s k with
  | none => none
  | some (v, none) => some v
  | some (v, some e) => if now < e then some v else none

/-- Redis TTL: -2 for a missing (or expired) key, -1 for a key with no
expiry, otherwise the remaining seconds. -/
def redisTtl (s : BFStore) (now : Nat) (k : String) : Int :=
  match s k with
  | none => -2
  | some (_, none) => -1
  | some (_, some e) => if now < e then (e : Int) - now else -2

/-- Redis INCR: increments an existing live key (keeping its expiry), or
creates the key at 1 with no expiry; returns the new value. -/
def redisIncr (s : BFStore) (now : Nat) (k : String) : BFStore × Nat :=
  match redisGet s now k with
  | some v =>
      match s k with
      | some (_, e) => (updFn s k (some (v + 1, e)), v + 1)
      | none => (updFn s k (some (v + 1, none)), v + 1)
  | none => (updFn s k (some (1, none)), 1)

/-- Redis EXPIRE: sets the expiry of a live key; no-op on a missing key. -/
def redisExpire (s : BFStore) (now : Nat) (k : String) (secs : Nat) : BFStore :=
  match redisGet s now k with
  | some v => updFn s k (some (v, some (now + secs)))
  | none => s

/-- Redis DEL. -/
def redisDel (s : BFStore) (k : String) : BFStore := updFn s k none

/-- Maximum failed attempts before lockout (BruteForceProtection.max_attempts). -/
def max_attempts : Nat := 5

/-- Window for counting attempts in seconds (BruteForceProtection.attempt_window). -/
def attempt_window : Nat := 300

/-- Redis key for brute force data (BruteForceProtection._get_key). -/
def bfKey (identifier : String) : String := "brute_force:" ++ identifier

/-- BruteForceProtection.record_failure: increment the per-identifier counter
and set the window TTL on the increment that created the key. -/
def record_failure (s : BFStore) (now : Nat) (identifier : String) : BFStore :=
  let r := redisIncr s now (bfKey identifier)
  if r.2 = 1 then redisExpire r.1 now (bfKey identifier) attempt_window else r.1

/-- BruteForceProtection.reset_attempts: delete the counter. -/
def reset_attempts (s : BFStore) (identifier : String) : BFStore :=
  redisDel s (bfKey identifier)

/-- BruteForceProtection.get_lockout_time: remaining lockout seconds, or none
when no counter exists or it is below the limit. -/
def get_lockout_time (s : BFStore) (now : Nat) (identifier : String) : Option Int :=
  match redisGet s now (bfKey identifier) with
  | none => none
  | some attempts =>
      if attempts < max_attempts then none
      else some (redisTtl s now (bfKey identifier))

/-- Status record returned by BruteForceProtection.get_status. -/
structure BruteForceStatus where
  is_blocked : Bool
  attempts : Nat
  wait_time : Int
deriving DecidableEq, Repr

/-- BruteForceProtection.get_status: evaluates the address-scoped and the
optional user-scoped counter, blocks on the maximum, and derives the wait
time from the user-scoped TTL, falling back to the address-scoped TTL. -/
def get_status (s : BFStore) (now : Nat) (user_id : Option String)
    (ip_address : String) : BruteForceStatus :=
  let ip_attempts := (redisGet s now (bfKey ip_address)).getD 0
  let user_attempts := match user_id with
    | some u => (redisGet s now (bfKey u)).getD 0
    | none => 0
  let total_attempts := max ip_attempts user_attempts
  let is_blocked := max_attempts ≤ total_attempts
  let wait_time : Int :=
    if is_blocked then
      let w : Int := match user_id with
        | some u => (get_lockout_time s now u).getD 0
        | none => 0
      if w = 0 then redisTtl s now (bfKey ip_address) else w
    else 0
  ⟨is_blocked, total_attempts, wait_time⟩

/-- Payload stored in a step-up method record (the data dict of the Python
StepUpMethod), one shape per kind as the code writes it. -/
inductive MethodData where
  | totp (secret : String)
  | recovery (codes : List String)
  | questions (qas : List (String × String))
deriving DecidableEq, Repr

/-- Step-up authentication method configuration (StepUpMethod model). -/
structure StepUpMethod where
  type : String
  enabled : Bool
  data : MethodData
  last_used : Option Nat
deriving DecidableEq, Repr

/-- Per-user step-up state: the Redis hash at step_up:methods:{user} as an
association list from field name to method record, and the separate string
key step_up:email:{user} holding the email code with its absolute expiry. -/
structure StepUpState where
  methods : List (String × StepUpMethod)
  email : Option (String × Nat)
deriving DecidableEq, Repr

/-- Redis HGET on an association-list hash. -/
def hget {α : Type} (l : List (String × α)) (k : String) : Option α :=
  (l.find? (fun p => p.1 == k)).map (·.2)

/-- Redis HSET on an association-list hash: replace the value of an
existing field in place, or append the new field. -/
def hsetF {α : Type} : List (String × α) → String → α → List (String × α)
  | [], k, v => [(k, v)]
  | p :: t, k, v => if p.1 == k then (k, v) :: t else p :: hsetF t k v

/-- Verification code timeout in seconds (StepUpAuth.verification_timeout). -/
def verification_timeout : Nat := 300

/-- StepUpAuth.setup_totp: store an enabled totp method with the generated
secret (randomness passed in), returning the secret as the setup data. -/
def setup_totp (st : StepUpState) (secret : String) : StepUpState × String :=
  ({ st with methods := hsetF st.methods "totp" ⟨"totp", true, .totp secret, none⟩ },
   secret)

/-- StepUpAuth.verify_totp: the pyotp verification of a code against the
stored secret is the external parameter totpVerify.  A missing or disabled
method returns false; a stored payload without a secret field would raise a
KeyError, modelled as an error value. -/
def verify_totp (totpVerify : String → String → Bool) (st : StepUpState)
    (code : String) (now : Nat) : Except String (StepUpState × Bool) :=
  match hget st.methods "totp" with
  | none => .ok (st, false)
  | some m =>
      if !m.enabled then .ok (st, false)
      else match m.data with
        | .totp secret =>
            if totpVerify secret code then
              let m2 := { m with last_used := some now }
              .ok ({ st with methods := hsetF st.methods "totp" m2 }, true)
            else .ok (st, false)
        | _ => .error "KeyError: secret"

/-- StepUpAuth.generate_recovery_codes: store the freshly generated codes
(randomness passed in) as an enabled recovery method and return them. -/
def generate_recovery_codes (st : StepUpState) (codes : List String) :
    StepUpState × List String :=
  let m2 : StepUpMethod := ⟨"recovery", true, .recovery codes, none⟩
  ({ st with methods := hsetF st.methods "recovery" m2 }, codes)

/-- StepUpAuth.verify_recovery_code: exact membership in the stored list;
on success the code is removed (first occurrence, as Python list.remove)
and last_used is set. -/
def verify_recovery_code (st : StepUpState) (code : String) (now : Nat) :
    Except String (StepUpState × Bool) :=
  match hget st.methods "recovery" with
  | none => .ok (st, false)
  | some m =>
      if !m.enabled then .ok (st, false)
      else match m.data with
        | .recovery codes =>
            if code ∈ codes then
              let m2 := { m with data := .recovery (codes.erase code),
                                 last_used := some now }
              .ok ({ st with methods := hsetF st.methods "recovery" m2 }, true)
            else .ok (st, false)
        | _ => .error "KeyError: codes"

/-- StepUpAuth.setup_security_questions: store the question and answer pairs
as an enabled questions method. -/
def setup_security_questions (st : StepUpState)
    (qas : List (String × String)) : StepUpState :=
  let m2 : StepUpMethod := ⟨"questions", true, .questions qas, none⟩
  { st with methods := hsetF st.methods "questions" m2 }

/-- Answer normalisation used by verify_security_questions: Python
a.lower().strip(), written over the character list so that it evaluates by
kernel reduction. -/
def normAnswer (s : String) : String :=
  let lowered := s.data.map Char.toLower
  let stripped :=
    ((lowered.dropWhile Char.isWhitespace).reverse.dropWhile
      Char.isWhitespace).reverse
  String.mk stripped

/-- StepUpAuth.verify_security_questions: all-or-nothing, order-sensitive,
case-insensitive and trimmed comparison of the answer list. -/
def verify_security_questions (st : StepUpState) (answers : List String)
    (now : Nat) : Except String (StepUpState × Bool) :=
  match hget st.methods "questions" with
  | none => .ok (st, false)
  | some m =>
      if !m.enabled then .ok (st, false)
      else match m.data with
        | .questions qas =>
            let stored_answers := qas.map (·.2)
            if answers.length ≠ stored_answers.length then .ok (st, false)
            else if (answers.zip stored_answers).all
                (fun p => normAnswer p.1 == normAnswer p.2) then
              let m2 := { m with last_used := some now }
              .ok ({ st with methods := hsetF st.methods "questions" m2 }, true)
            else .ok (st, false)
        | _ => .error "KeyError: questions"

/-- StepUpAuth.send_verification_email: store the generated code (randomness
passed in) under the separate email key with the verification timeout; the
actual mail dispatch is the external collaborator. -/
def send_verification_email (st : StepUpState) (code : String) (now : Nat) :
    StepUpState :=
  { st with email := some (code, now + verification_timeout) }

/-- StepUpAuth.verify_email_code: constant-time equality against the stored
short-lived code; an absent or expired code fails. -/
def verify_email_code (st : StepUpState) (code : String) (now : Nat) :
    Except String (StepUpState × Bool) :=
  match st.email with
  | none => .ok (st, false)
  | some (stored, e) =>
      if now < e then .ok (st, stored == code) else .ok (st, false)

/-- StepUpAuth.get_available_methods: the field names of the methods hash
whose stored record is enabled. -/
def get_available_methods (st : StepUpState) : List String :=
  (st.methods.filter (fun p => p.2.enabled)).map (·.1)

/-- Step-up states reachable from an empty user record through the public
StepUpAuth operations. -/
inductive SUReach : StepUpState → Prop where
  | init : SUReach ⟨[], none⟩
  | setupTotp (s : StepUpState) (secret : String) :
      SUReach s → SUReach (setup_totp s secret).1
  | verifyTotp (tv : String → String → Bool) (s s' : StepUpState)
      (c : String) (now : Nat) (b : Bool) :
      SUReach s → verify_totp tv s c now = .ok (s', b) → SUReach s'
  | genRecovery (s : StepUpState) (codes : List String) :
      SUReach s → SUReach (generate_recovery_codes s codes).1
  | verifyRecovery (s s' : StepUpState) (c : String) (now : Nat) (b : Bool) :
      SUReach s → verify_recovery_code s c now = .ok (s', b) → SUReach s'
  | setupQuestions (s : StepUpState) (qas : List (String × String)) :
      SUReach s → SUReach (setup_security_questions s qas)
  | verifyQuestions (s s' : StepUpState) (ans : List String) (now : Nat)
      (b : Bool) :
      SUReach s → verify_security_questions s ans now = .ok (s', b) → SUReach s'
  | sendEmail (s : StepUpState) (code : String) (now : Nat) :
      SUReach s → SUReach (send_verification_email s code now)
  | verifyEmail (s s' : StepUpState) (c : String) (now : Nat) (b : Bool) :
      SUReach s → verify_email_code s c now = .ok (s', b) → SUReach s'

/-- Well-formedness of a step-up state: each registry field holds the
payload shape the code stores there. -/
def SUWF (st : StepUpState) : Prop :=
  (∀ m, hget st.methods "totp" = some m → ∃ s, m.data = .totp s) ∧
  (∀ m, hget st.methods "recovery" = some m → ∃ c, m.data = .recovery c) ∧
  (∀ m, hget st.methods "questions" = some m → ∃ q, m.data = .questions q)

/-- Parsed user-agent families, the fields of user_agents.parse the code
reads (browser.family, os.family, device.family). -/
structure UAInfo where
  browser : String
  os : String
  device : String
deriving DecidableEq, Repr

/-- Location dictionary as DeviceManager._get_location builds it. -/
structure LocationD where
  country : String
  city : String
  latitude : String
  longitude : String
deriving DecidableEq, Repr

/-- Device information model (DeviceInfo), with the trust score carried as
an exact rational. -/
structure DeviceInfo where
  fingerprint : String
  user_agent : String
  ip_address : String
  location : Option LocationD
  first_seen : Nat
  last_seen : Nat
  trust_score : ℚ
  is_trusted : Bool
deriving DecidableEq, Repr

/-- Trust threshold (DeviceManager.trust_threshold). -/
def trust_threshold : ℚ := 0.7

/-- Location weight (DeviceManager.location_weight). -/
def location_weight : ℚ := 0.4

/-- History weight (DeviceManager.history_weight). -/
def history_weight : ℚ := 0.3

/-- Pattern weight (DeviceManager.pattern_weight). -/
def pattern_weight : ℚ := 0.3

/-- Request signals the security core reads: the headers feeding the
fingerprint, the client address, the request path and the bearer header. -/
structure RequestSig where
  user_agent : String
  ip : String
  accept : String
  accept_language : String
  accept_encoding : String
  path : String
deriving DecidableEq, Repr

/-- DeviceManager._generate_fingerprint, with the sha256 digest as the
external hash parameter. -/
def generate_fingerprint (hash : String → String) (r : RequestSig) : String :=
  hash (r.user_agent ++ "|" ++ r.ip ++ "|" ++ r.accept ++ "|" ++
    r.accept_language ++ "|" ++ r.accept_encoding)

/-- String prefix test over the character lists, the kernel-computable
counterpart of Python str.startswith. -/
def strStarts (s pre : String) : Bool := pre.data.isPrefixOf s.data

/-- DeviceManager._get_location: the development lookup that only resolves
loopback addresses. -/
def get_location (ip_address : String) : Option LocationD :=
  if strStarts ip_address "127." || ip_address == "::1" then
    some ⟨"Local", "Localhost", "0", "0"⟩
  else none

/-- DeviceManager._calculate_location_score. -/
def calculate_location_score (current_location : Option LocationD)
    (known_locations : List LocationD) : ℚ :=
  match current_location with
  | none => 0.5
  | some c =>
      if known_locations.isEmpty then 0.5
      else if known_locations.any
          (fun k => k.country == c.country && k.city == c.city) then 1.0
      else if known_locations.any (fun k => k.country == c.country) then 0.7
      else 0.3

/-- DeviceManager._calculate_history_score. -/
def calculate_history_score (device_info : DeviceInfo) (total_logins : Nat)
    (now : Nat) : ℚ :=
  if (now - device_info.first_seen) / 86400 > 30 then 1.0
  else if total_logins > 10 then 0.9
  else if total_logins > 5 then 0.7
  else 0.5

/-- DeviceManager._calculate_pattern_score, with user_agents.parse as the
external parameter. -/
def calculate_pattern_score (parse : String → UAInfo) (request_ua : String)
    (device_info : DeviceInfo) : ℚ :=
  let current_ua := parse request_ua
  let stored_ua := parse device_info.user_agent
  if current_ua.browser == stored_ua.browser
      && current_ua.os == stored_ua.os
      && current_ua.device == stored_ua.device then 1.0
  else if current_ua.browser == stored_ua.browser
      && current_ua.os == stored_ua.os then 0.8
  else 0.4

/-- Per-user device state: the device:info hash keyed by fingerprint, the
device:locations JSON list (absent until first written) and the
total_logins field of the device:stats hash. -/
structure DeviceState where
  info : String → Option DeviceInfo
  locations : Option (List LocationD)
  total_logins : Option Nat

/-- DeviceManager.process_device: recognise or create the device record,
maintain known locations and the login counter, and recompute the trust
score on repeat observations. -/
def process_device (hash : String → String) (parse : String → UAInfo)
    (st : DeviceState) (r : RequestSig) (now : Nat) :
    DeviceState × DeviceInfo :=
  let fingerprint := generate_fingerprint hash r
  let location := get_location r.ip
  match st.info fingerprint with
  | some stored =>
      let d1 := { stored with last_seen := now }
      let known := st.locations.getD []
      let appended := match location with
        | some loc => if loc ∈ known then none else some (known ++ [loc])
        | none => none
      let known2 := appended.getD known
      let locations2 := match appended with
        | some l2 => some l2
        | none => st.locations
      let total := st.total_logins.getD 0 + 1
      let location_score := calculate_location_score location known2
      let history_score := calculate_history_score d1 total now
      let pattern_score := calculate_pattern_score parse r.user_agent d1
      let score := location_score * location_weight
        + history_score * history_weight + pattern_score * pattern_weight
      let d2 := { d1 with trust_score := score,
                          is_trusted := decide (trust_threshold ≤ score) }
      ({ info := updFn st.info fingerprint (some d2),
         locations := locations2, total_logins := some total }, d2)
  | none =>
      let d : DeviceInfo :=
        ⟨fingerprint, r.user_agent, r.ip, location, now, now, 0.5, false⟩
      let locations2 := match location with
        | some loc => some [loc]
        | none => st.locations
      ({ info := updFn st.info fingerprint (some d),
         locations := locations2, total_logins := some 1 }, d)

/-- DeviceManager.get_device_info. -/
def get_device_info (st : DeviceState) (fingerprint : String) :
    Option DeviceInfo :=
  st.info fingerprint

/-- DeviceManager.mark_device_trusted: force the stored record to trusted
with score 1.0. -/
def mark_device_trusted (st : DeviceState) (fingerprint : String) :
    DeviceState :=
  match get_device_info st fingerprint with
  | none => st
  | some d =>
      let d2 := { d with is_trusted := true, trust_score := 1.0 }
      { st with info := updFn st.info fingerprint (some d2) }

/-- DeviceManager.mark_device_untrusted: force the stored record to
untrusted with score 0.0. -/
def mark_device_untrusted (st : DeviceState) (fingerprint : String) :
    DeviceState :=
  match get_device_info st fingerprint with
  | none => st
  | some d =>
      let d2 := { d with is_trusted := false, trust_score := 0.0 }
      { st with info := updFn st.info fingerprint (some d2) }

/-- Device states reachable from an empty user record through the
DeviceManager operations, over all external hash and parse functions. -/
inductive DReach : DeviceState → Prop where
  | init : DReach ⟨fun _ => none, none, none⟩
  | process (hash : String → String) (parse : String → UAInfo)
      (s : DeviceState) (r : RequestSig) (now : Nat) :
      DReach s → DReach (process_device hash parse s r now).1
  | markTrusted (s : DeviceState) (fp : String) :
      DReach s → DReach (mark_device_trusted s fp)
  | markUntrusted (s : DeviceState) (fp : String) :
      DReach s → DReach (mark_device_untrusted s fp)

/-- Session data model (SessionData). -/
structure SessionData where
  user_id : String
  created_at : Nat
  expires_at : Nat
  ip_address : String
  user_agent : String
  is_active : Bool
deriving DecidableEq, Repr

/-- Session store: the session:{id} string keys (value plus absolute Redis
expiry) and the user_sessions:{user} sets. -/
structure SessStore where
  sessions : String → Option (SessionData × Nat)
  user_sessions : String → List String

/-- Redis key for a session (SessionManager._get_key with the default
session prefix). -/
def sessKey (session_id : String) : String := "session:" ++ session_id

/-- SessionManager.get_session: read the session value, absent once the
Redis TTL has elapsed. -/
def get_session (st : SessStore) (now : Nat) (session_id : String) :
    Option SessionData :=
  match st.sessions (sessKey session_id) with
  | none => none
  | some (d, e) => if now < e then some d else none

/-- SessionManager.create_session: build the record with a sliding window of
timeout minutes, store it with the matching TTL and add the id to the user
set; the generated uuid is passed in. -/
def create_session (timeout : Nat) (st : SessStore) (user_id : String)
    (r : RequestSig) (now : Nat) (session_id : String) : SessStore × String :=
  let data : SessionData :=
    ⟨user_id, now, now + timeout * 60, r.ip, r.user_agent, true⟩
  let key := "user_sessions:" ++ user_id
  let members := st.user_sessions key
  let members2 := if session_id ∈ members then members
    else members ++ [session_id]
  ({ sessions := updFn st.sessions (sessKey session_id)
       (some (data, now + timeout * 60)),
     user_sessions := updFn st.user_sessions key members2 }, session_id)

/-- SessionManager.end_session: drop the id from the user set when the
record still resolves, then delete the record. -/
def end_session (st : SessStore) (now : Nat) (session_id : String) :
    SessStore :=
  let st2 := match get_session st now session_id with
    | some d =>
        let key := "user_sessions:" ++ d.user_id
        let members2 := (st.user_sessions key).filter (fun x => x ≠ session_id)
        { st with user_sessions := updFn st.user_sessions key members2 }
    | none => st
  { st2 with sessions := updFn st2.sessions (sessKey session_id) none }

/-- SessionManager.validate_session: false for a missing record; an inactive
or overdue record is ended and reported false; otherwise the expiry is
pushed forward by the timeout and the call reports true. -/
def validate_session (timeout : Nat) (st : SessStore) (now : Nat)
    (session_id : String) : SessStore × Bool :=
  match get_session st now session_id with
  | none => (st, false)
  | some s =>
      if !s.is_active || s.expires_at < now then
        (end_session st now session_id, false)
      else
        let s2 := { s with expires_at := now + timeout * 60 }
        let stored := updFn st.sessions (sessKey session_id) (some (s2, now + timeout * 60))
        ({ st with sessions := stored }, true)

/-- HTTP response as the middleware observes it: a status code and a header
mapping with assignment semantics. -/
structure HttpResponse where
  status : Nat
  headers : String → Option String

/-- Combined state the SecurityMiddleware touches: the brute-force counters
plus each user's device and step-up state. -/
structure SysState where
  bf : BFStore
  device : String → DeviceState
  stepup : String → StepUpState

/-- Header assignment (response.headers[k] = v). -/
def setHeader (r : HttpResponse) (k v : String) : HttpResponse :=
  { r with headers := updFn r.headers k (some v) }

/-- The fixed hardening header block that SecurityMiddleware.dispatch
attaches after call_next. -/
def addSecurityHeaders (r : HttpResponse) : HttpResponse :=
  setHeader (setHeader (setHeader (setHeader r
    "X-Content-Type-Options" "nosniff")
    "X-Frame-Options" "DENY")
    "X-XSS-Protection" "1; mode=block")
    "Strict-Transport-Security" "max-age=31536000; includeSubDomains"

/-- SecurityMiddleware._should_process: true when no excluded path is a
string prefix of the request path. -/
def should_process (exclude_paths : List String) (r : RequestSig) : Bool :=
  !(exclude_paths.any (fun p => strStarts r.path p))

/-- SecurityMiddleware._check_brute_force: a 429 short-circuit response when
the guard reports blocked, otherwise nothing. -/
def check_brute_force (sys : SysState) (now : Nat) (r : RequestSig)
    (user_id : Option String) : Option HttpResponse :=
  let status := get_status sys.bf now user_id r.ip
  if status.is_blocked then some ⟨429, fun _ => none⟩ else none

/-- SecurityMiddleware._check_device: process the device and short-circuit
with 403 (no methods configured) or 428 (step-up required) when the device
is not trusted. -/
def check_device (hash : String → String) (parse : String → UAInfo)
    (sys : SysState) (now : Nat) (r : RequestSig) (user_id : String) :
    SysState × Option HttpResponse :=
  let pd := process_device hash parse (sys.device user_id) r now
  let sys2 := { sys with device := updFn sys.device user_id pd.1 }
  if pd.2.is_trusted then (sys2, none)
  else
    let methods := get_available_methods (sys2.stepup user_id)
    if methods.isEmpty then (sys2, some ⟨403, fun _ => none⟩)
    else (sys2, some ⟨428, fun _ => none⟩)

/-- SecurityMiddleware.dispatch.  Identity resolution is the delegated
external collaborator (the source stubs _get_user_id with a TODO), passed
in as getUser; call_next is the downstream handler. -/
def dispatch (exclude_paths : List String)
    (getUser : RequestSig → Option String) (hash : String → String)
    (parse : String → UAInfo) (sys : SysState) (now : Nat) (r : RequestSig)
    (call_next : RequestSig → HttpResponse) : SysState × HttpResponse :=
  if !(should_process exclude_paths r) then (sys, call_next r)
  else
    let user_id := getUser r
    match check_brute_force sys now r user_id with
    | some resp => (sys, resp)
    | none =>
        let checked := match user_id with
          | some u => check_device hash parse sys now r u
          | none => (sys, none)
        match checked.2 with
        | some resp => (checked.1, resp)
        | none => (checked.1, addSecurityHeaders (call_next r))

/-- Login event data model (LoginEvent). -/
structure LoginEvent where
  session_id : String
  user_id : String
  timestamp : Nat
  ip_address : String
  user_agent : String
  device_type : String
  browser : String
  os : String
  country : Option String
  city : Option String
  success : Bool
deriving DecidableEq, Repr

/-- SessionAnalytics.detect_anomalies over the most-recent-first login event
log of one user: silent with no history, otherwise one anomaly string per
dimension whose current value was never seen among the successful events of
the last 101 log entries.  The geoip country lookup is the external geo
parameter. -/
def detect_anomalies (parse : String → UAInfo) (geo : String → Option String)
    (log : List LoginEvent) (r : RequestSig) : List String :=
  let events := log.take 101
  if events.isEmpty then []
  else
    let succ := events.filter (·.success)
    let locations := succ.filterMap (fun e => match e.country with
      | some c => if c = "" then none else some c
      | none => none)
    let devices := succ.map (·.device_type)
    let browsers := succ.map (·.browser)
    let ua := parse r.user_agent
    let country := geo r.ip
    let a1 := match country with
      | some c =>
          if c ≠ "" ∧ c ∉ locations then ["Unusual login location: " ++ c]
          else []
      | none => []
    let a2 := if ua.device ∉ devices then ["Unusual device: " ++ ua.device]
      else []
    let a3 := if ua.browser ∉ browsers then ["Unusual browser: " ++ ua.browser]
      else []
    a1 ++ a2 ++ a3

/-! Theorems and witnesses. -/

lemma updFn_same {α : Type} (s : String → α) (k : String) (v : α) :
    updFn s k v k = v := by simp [updFn]

lemma updFn_other {α : Type} (s : String → α) (k k' : String) (v : α)
    (h : k' ≠ k) : updFn s k v k' = s k' := by simp [updFn, h]

lemma updFn_updFn {α : Type} (s : String → α) (k : String) (v w : α) :
    updFn (updFn s k v) k w = updFn s k w := by
  funext x
  by_cases h : x = k <;> simp [updFn, h]

lemma bfKey_inj {a b : String} (h : bfKey a = bfKey b) : a = b := by
  have := congrArg String.data h
  simp [bfKey, String.data_append] at this
  exact String.ext this

lemma record_failure_fresh (s : BFStore) (now : Nat) (id : String)
    (h : redisGet s now (bfKey id) = none) :
    record_failure s now id =
      updFn s (bfKey id) (some (1, some (now + attempt_window))) := by
  have hi : redisIncr s now (bfKey id) = (updFn s (bfKey id) (some (1, none)), 1) := by
    simp [redisIncr, h]
  funext x
  by_cases hx : x = bfKey id <;>
    simp [record_failure, hi, redisExpire, redisGet, updFn, hx]

lemma record_failure_live (s : BFStore) (now : Nat) (id : String) (n e : Nat)
    (h : s (bfKey id) = some (n, some e)) (hlt : now < e) (hn : n ≠ 0) :
    record_failure s now id = updFn s (bfKey id) (some (n + 1, some e)) := by
  have hg : redisGet s now (bfKey id) = some n := by
    simp [redisGet, h, hlt]
  have hi : redisIncr s now (bfKey id) =
      (updFn s (bfKey id) (some (n + 1, some e)), n + 1) := by
    simp [redisIncr, hg, h]
  have hne : ¬ (n + 1 = 1) := by omega
  simp [record_failure, hi, hne]


lemma record_failure_upd (s0 : BFStore) (id : String) (n e now : Nat)
    (hlt : now < e) (hn : n ≠ 0) :
    record_failure (updFn s0 (bfKey id) (some (n, some e))) now id =
      updFn s0 (bfKey id) (some (n + 1, some e)) := by
  rw [record_failure_live _ now id n e (updFn_same _ _ _) hlt hn, updFn_updFn]

/-- Claim C3: for a single identifier with no live counter, exactly five
record_failure calls within the 300-second attempt window make get_status
report blocked with the wait time equal to the remaining TTL of the counter
window, and one reset (record_success) call makes a later get_status report
unblocked immediately. -/
theorem C3_lockout (s0 : BFStore) (identifier ip_address : String)
    (t1 t2 t3 t4 t5 tq tr : Nat)
    (h0 : redisGet s0 t1 (bfKey identifier) = none)
    (hip : s0 (bfKey ip_address) = none)
    (hni : ip_address ≠ identifier)
    (h12 : t1 ≤ t2) (h23 : t2 ≤ t3) (h34 : t3 ≤ t4) (h45 : t4 ≤ t5)
    (h5q : t5 ≤ tq) (hq : tq < t1 + attempt_window) :
    get_status (record_failure (record_failure (record_failure (record_failure
        (record_failure s0 t1 identifier) t2 identifier) t3 identifier)
        t4 identifier) t5 identifier) tq (some identifier) ip_address =
      ⟨true, max_attempts, ((t1 + attempt_window : Nat) : Int) - (tq : Int)⟩ ∧
    0 < ((t1 + attempt_window : Nat) : Int) - (tq : Int) ∧
    get_status (reset_attempts (record_failure (record_failure (record_failure
        (record_failure (record_failure s0 t1 identifier) t2 identifier)
        t3 identifier) t4 identifier) t5 identifier) identifier)
        tr (some identifier) ip_address = ⟨false, 0, 0⟩ := by
  have hkne : bfKey ip_address ≠ bfKey identifier := fun h => hni (bfKey_inj h)
  rw [record_failure_fresh s0 t1 identifier h0,
    record_failure_upd s0 identifier 1 (t1 + attempt_window) t2 (by omega) (by omega),
    record_failure_upd s0 identifier 2 (t1 + attempt_window) t3 (by omega) (by omega),
    record_failure_upd s0 identifier 3 (t1 + attempt_window) t4 (by omega) (by omega),
    record_failure_upd s0 identifier 4 (t1 + attempt_window) t5 (by omega) (by omega)]
  set s5 := updFn s0 (bfKey identifier) (some (5, some (t1 + attempt_window))) with hs5
  have huser : s5 (bfKey identifier) = some (5, some (t1 + attempt_window)) :=
    updFn_same _ _ _
  have hipq : s5 (bfKey ip_address) = none := by
    rw [hs5, updFn_other _ _ _ _ hkne]; exact hip
  refine ⟨?_, by omega, ?_⟩
  · simp [get_status, redisGet, redisTtl, get_lockout_time, huser, hipq, hq,
      max_attempts]
    omega
  · have hres : reset_attempts s5 identifier =
        updFn s0 (bfKey identifier) none := by
      rw [hs5]; exact updFn_updFn _ _ _ _
    rw [hres]
    have hu2 : updFn s0 (bfKey identifier) none (bfKey identifier) = none :=
      updFn_same _ _ _
    have hi2 : updFn s0 (bfKey identifier) none (bfKey ip_address) = none := by
      rw [updFn_other _ _ _ _ hkne]; exact hip
    simp [get_status, redisGet, hu2, hi2, max_attempts]

/-- Witness for C3_lockout at a concrete store, identifier and clock. -/
theorem C3_lockout_witness :
    ("10.0.0.5" : String) ≠ "alice" ∧
    (get_status (record_failure (record_failure (record_failure (record_failure
        (record_failure (fun _ => none) 0 "alice") 10 "alice") 20 "alice")
        30 "alice") 40 "alice") 40 (some "alice") "10.0.0.5" =
      ⟨true, max_attempts, ((0 + attempt_window : Nat) : Int) - ((40 : Nat) : Int)⟩ ∧
    0 < ((0 + attempt_window : Nat) : Int) - ((40 : Nat) : Int) ∧
    get_status (reset_attempts (record_failure (record_failure (record_failure
        (record_failure (record_failure (fun _ => none) 0 "alice") 10 "alice")
        20 "alice") 30 "alice") 40 "alice") "alice")
        1000 (some "alice") "10.0.0.5" = ⟨false, 0, 0⟩) :=
  ⟨by decide,
   C3_lockout (fun _ => none) "alice" "10.0.0.5" 0 10 20 30 40 40 1000
     rfl rfl (by decide) (by decide) (by decide) (by decide) (by decide)
     (by decide) (by decide)⟩

/-- Claim C7: validating a session immediately after creating it reports
true and rewrites the stored expiry to the validation instant plus the
timeout (sliding expiration); once a session has been ended, validation
reports false at every later instant and leaves the store unchanged, so
every subsequent validation also reports false. -/
theorem C7_session_lifecycle (timeout : Nat) (ht : 0 < timeout) :
    (∀ (st : SessStore) (user_id : String) (r : RequestSig) (now : Nat)
        (sid : String),
      (validate_session timeout
          (create_session timeout st user_id r now sid).1 now sid).2 = true ∧
      get_session (validate_session timeout
          (create_session timeout st user_id r now sid).1 now sid).1 now sid =
        some ⟨user_id, now, now + timeout * 60, r.ip, r.user_agent, true⟩) ∧
    (∀ (st : SessStore) (tEnd t : Nat) (sid : String),
      validate_session timeout (end_session st tEnd sid) t sid =
        (end_session st tEnd sid, false)) := by
  constructor
  · intro st user_id r now sid
    have hkey : (create_session timeout st user_id r now sid).1.sessions
        (sessKey sid) =
        some (⟨user_id, now, now + timeout * 60, r.ip, r.user_agent, true⟩,
          now + timeout * 60) := by
      simp [create_session, updFn_same]
    have hlt : now < now + timeout * 60 := by omega
    have hget : get_session (create_session timeout st user_id r now sid).1
        now sid =
        some ⟨user_id, now, now + timeout * 60, r.ip, r.user_agent, true⟩ := by
      simp [get_session, hkey, hlt]
    have hcond : ¬ (now + timeout * 60 < now) := by omega
    have hval : validate_session timeout
        (create_session timeout st user_id r now sid).1 now sid =
        ({ (create_session timeout st user_id r now sid).1 with
            sessions := updFn
              (create_session timeout st user_id r now sid).1.sessions
              (sessKey sid)
              (some (⟨user_id, now, now + timeout * 60, r.ip, r.user_agent,
                true⟩, now + timeout * 60)) }, true) := by
      simp [validate_session, hget, hcond]
    rw [hval]
    exact ⟨rfl, by simp [get_session, updFn_same, hlt]⟩
  · intro st tEnd t sid
    have hkey : (end_session st tEnd sid).sessions (sessKey sid) = none := by
      simp [end_session, updFn_same]
    simp [validate_session, get_session, hkey]

/-- Witness for C7_session_lifecycle at a concrete timeout, store, request
and clock. -/
theorem C7_session_lifecycle_witness :
    0 < 30 ∧
    ((∀ (st : SessStore) (user_id : String) (r : RequestSig) (now : Nat)
        (sid : String),
      (validate_session 30
          (create_session 30 st user_id r now sid).1 now sid).2 = true ∧
      get_session (validate_session 30
          (create_session 30 st user_id r now sid).1 now sid).1 now sid =
        some ⟨user_id, now, now + 30 * 60, r.ip, r.user_agent, true⟩) ∧
    (∀ (st : SessStore) (tEnd t : Nat) (sid : String),
      validate_session 30 (end_session st tEnd sid) t sid =
        (end_session st tEnd sid, false))) :=
  ⟨by decide, C7_session_lifecycle 30 (by decide)⟩

/-- Claim C9: with zero recorded login events detect_anomalies reports
nothing for any input, and against a non-empty history of successful logins
all from one browser family, a request whose parsed browser family differs
yields at least one anomaly string. -/
theorem C9_anomalies :
    (∀ (parse : String → UAInfo) (geo : String → Option String)
        (r : RequestSig), detect_anomalies parse geo [] r = []) ∧
    (∀ (parse : String → UAInfo) (geo : String → Option String)
        (log : List LoginEvent) (r : RequestSig) (b : String),
      log ≠ [] →
      (∀ e ∈ log, e.success = true ∧ e.browser = b) →
      (parse r.user_agent).browser ≠ b →
      detect_anomalies parse geo log r ≠ []) := by
  constructor
  · intro parse geo r
    simp [detect_anomalies]
  · intro parse geo log r b hne hall hbrow
    have hev : ¬ (log.take 101).isEmpty := by
      cases log with
      | nil => exact absurd rfl hne
      | cons e l => simp [List.take]
    have hmem : (parse r.user_agent).browser ∉
        ((log.take 101).filter (·.success)).map (·.browser) := by
      intro hm
      rcases List.mem_map.mp hm with ⟨e, he, heq⟩
      have hlog : e ∈ log := List.mem_of_mem_take (List.mem_of_mem_filter he)
      exact hbrow (heq ▸ (hall e hlog).2 ▸ rfl)
    simp only [detect_anomalies, hev, Bool.false_eq_true, if_false]
    intro hnil
    rcases List.append_eq_nil.mp hnil with ⟨_, h3⟩
    rw [if_pos hmem] at h3
    exact List.cons_ne_nil _ _ h3

/-- Witness for C9_anomalies at a concrete one-event history and a request
parsed to a different browser family. -/
theorem C9_anomalies_witness :
    ([(⟨"s1", "u1", 0, "9.9.9.9", "uaX", "Other", "Chrome", "Win", none,
        none, true⟩ : LoginEvent)] ≠ ([] : List LoginEvent)) ∧
    (∀ e ∈ [(⟨"s1", "u1", 0, "9.9.9.9", "uaX", "Other", "Chrome", "Win",
        none, none, true⟩ : LoginEvent)],
      e.success = true ∧ e.browser = "Chrome") ∧
    ((fun _ => (⟨"Firefox", "Win", "Other"⟩ : UAInfo)) "uaY").browser ≠
      "Chrome" ∧
    detect_anomalies (fun _ => ⟨"Firefox", "Win", "Other"⟩) (fun _ => none)
      [⟨"s1", "u1", 0, "9.9.9.9", "uaX", "Other", "Chrome", "Win", none,
        none, true⟩]
      ⟨"uaY", "8.8.8.8", "a", "al", "ae", "/x"⟩ ≠ [] :=
  ⟨by decide, by decide, by decide,
   C9_anomalies.2 (fun _ => ⟨"Firefox", "Win", "Other"⟩) (fun _ => none)
     [⟨"s1", "u1", 0, "9.9.9.9", "uaX", "Other", "Chrome", "Win", none,
       none, true⟩]
     ⟨"uaY", "8.8.8.8", "a", "al", "ae", "/x"⟩ "Chrome"
     (by decide) (by decide) (by decide)⟩

lemma hget_hsetF_same {α : Type} (l : List (String × α)) (k : String)
    (v : α) : hget (hsetF l k v) k = some v := by
  induction l with
  | nil => simp [hget, hsetF]
  | cons a t ih =>
      by_cases hk : a.1 = k
      · simp [hsetF, hget, hk, List.find?]
      · have hk2 : (a.1 == k) = false := by simp [hk]
        simp only [hsetF, hk2, if_false]
        simpa [hget, List.find?, hk2] using ih

lemma hget_hsetF_other {α : Type} (l : List (String × α)) (k k2 : String)
    (v : α) (h : k2 ≠ k) : hget (hsetF l k v) k2 = hget l k2 := by
  have hkk : (k == k2) = false := beq_eq_false_iff_ne.mpr (Ne.symm h)
  induction l with
  | nil => simp [hget, hsetF, List.find?, hkk]
  | cons a t ih =>
      by_cases hk : a.1 = k
      · have hk1 : (a.1 == k) = true := by simp [hk]
        have ha2 : (a.1 == k2) = false := by
          rw [show a.1 = k from hk]; exact hkk
        simp [hsetF, hk1, hget, List.find?, hkk, ha2]
      · have hk2 : (a.1 == k) = false := by simp [hk]
        by_cases ha : a.1 = k2
        · have ha1 : (a.1 == k2) = true := by simp [ha]
          simp [hsetF, hk2, hget, List.find?, ha1]
        · have ha2 : (a.1 == k2) = false := by simp [ha]
          simp only [hsetF, hk2, if_false, Bool.false_eq_true]
          simpa [hget, List.find?, ha2] using ih

/-- Claim C5: a stored recovery code (present exactly once in the unused
list) verifies successfully exactly once; the success removes it from the
stored list, and repeating the same code against the updated state fails. -/
theorem C5_recovery_single_use (st : StepUpState) (m : StepUpMethod)
    (codes : List String) (c : String) (now now2 : Nat)
    (hm : hget st.methods "recovery" = some m)
    (hen : m.enabled = true)
    (hd : m.data = .recovery codes)
    (hc : codes.count c = 1) :
    verify_recovery_code st c now =
      .ok ({ st with methods := hsetF st.methods "recovery"
                                  { m with
                                    data :=
                                      MethodData.recovery (codes.erase c),
                                    last_used := some now } }, true) ∧
    c ∉ codes.erase c ∧
    verify_recovery_code
      { st with methods := hsetF st.methods "recovery"
                             { m with
                               data := MethodData.recovery (codes.erase c),
                               last_used := some now } } c now2 =
      .ok ({ st with methods := hsetF st.methods "recovery"
                                  { m with
                                    data :=
                                      MethodData.recovery (codes.erase c),
                                    last_used := some now } }, false) := by
  have hmem : c ∈ codes := by
    have h0 : 0 < codes.count c := by omega
    exact List.count_pos_iff.mp h0
  have hnot : c ∉ codes.erase c := by
    have hcnt : (codes.erase c).count c = codes.count c - 1 :=
      List.count_erase_self c codes
    intro hmem2
    have h1 : 0 < (codes.erase c).count c := List.count_pos_iff.mpr hmem2
    omega
  refine ⟨?_, hnot, ?_⟩
  · simp [verify_recovery_code, hm, hen, hd, hmem]
  · simp [verify_recovery_code, hget_hsetF_same, hen, hnot]

/-- Witness for C5_recovery_single_use at a concrete two-code state. -/
theorem C5_recovery_single_use_witness :
    hget (StepUpState.mk
        [("recovery", ⟨"recovery", true, .recovery ["aaa", "bbb"], none⟩)]
        none).methods "recovery" =
      some ⟨"recovery", true, .recovery ["aaa", "bbb"], none⟩ ∧
    (⟨"recovery", true, .recovery ["aaa", "bbb"], none⟩ :
        StepUpMethod).enabled = true ∧
    (⟨"recovery", true, .recovery ["aaa", "bbb"], none⟩ :
        StepUpMethod).data = .recovery ["aaa", "bbb"] ∧
    (["aaa", "bbb"].count "aaa" = 1) ∧
    (verify_recovery_code (StepUpState.mk
        [("recovery", ⟨"recovery", true, .recovery ["aaa", "bbb"], none⟩)]
        none) "aaa" 5 =
      .ok ({ StepUpState.mk
               [("recovery",
                 ⟨"recovery", true, .recovery ["aaa", "bbb"], none⟩)]
               none with
             methods := hsetF (StepUpState.mk
                 [("recovery",
                   ⟨"recovery", true, .recovery ["aaa", "bbb"], none⟩)]
                 none).methods "recovery"
                 { (⟨"recovery", true, .recovery ["aaa", "bbb"], none⟩ :
                     StepUpMethod) with
                   data := MethodData.recovery (["aaa", "bbb"].erase "aaa"),
                   last_used := some 5 } }, true) ∧
      "aaa" ∉ ["aaa", "bbb"].erase "aaa" ∧
      verify_recovery_code
        { StepUpState.mk
            [("recovery",
              ⟨"recovery", true, .recovery ["aaa", "bbb"], none⟩)]
            none with
          methods := hsetF (StepUpState.mk
              [("recovery",
                ⟨"recovery", true, .recovery ["aaa", "bbb"], none⟩)]
              none).methods "recovery"
              { (⟨"recovery", true, .recovery ["aaa", "bbb"], none⟩ :
                  StepUpMethod) with
                data := MethodData.recovery (["aaa", "bbb"].erase "aaa"),
                last_used := some 5 } } "aaa" 6 =
      .ok ({ StepUpState.mk
               [("recovery",
                 ⟨"recovery", true, .recovery ["aaa", "bbb"], none⟩)]
               none with
             methods := hsetF (StepUpState.mk
                 [("recovery",
                   ⟨"recovery", true, .recovery ["aaa", "bbb"], none⟩)]
                 none).methods "recovery"
                 { (⟨"recovery", true, .recovery ["aaa", "bbb"], none⟩ :
                     StepUpMethod) with
                   data := MethodData.recovery (["aaa", "bbb"].erase "aaa"),
                   last_used := some 5 } }, false)) :=
  ⟨rfl, rfl, rfl, by decide,
   C5_recovery_single_use
     (StepUpState.mk
       [("recovery", ⟨"recovery", true, .recovery ["aaa", "bbb"], none⟩)]
       none)
     ⟨"recovery", true, .recovery ["aaa", "bbb"], none⟩
     ["aaa", "bbb"] "aaa" 5 6 rfl rfl rfl (by decide)⟩

lemma isOk_ok {ε α : Type} (a : α) :
    (Except.ok a : Except ε α).isOk = true := rfl

lemma isOk_ite {ε α : Type} (c : Prop) [Decidable c] (a b : Except ε α)
    (ha : a.isOk = true) (hb : b.isOk = true) :
    (if c then a else b).isOk = true := by
  split <;> assumption

/-- Claim C4: on every well-formed user state, each of the four step-up
verification operations completes without raising (its result is an ok
value for every input), and a wrong or non-matching response makes it
return false with the state unchanged. -/
theorem C4_verify_never_raises (tv : String → String → Bool)
    (st : StepUpState) (code : String) (answers : List String) (now : Nat)
    (hwf : SUWF st) :
    (verify_totp tv st code now).isOk = true ∧
    (verify_recovery_code st code now).isOk = true ∧
    (verify_security_questions st answers now).isOk = true ∧
    (verify_email_code st code now).isOk = true ∧
    (∀ m secret, hget st.methods "totp" = some m → m.data = .totp secret →
      tv secret code = false →
      verify_totp tv st code now = .ok (st, false)) ∧
    (∀ m codes, hget st.methods "recovery" = some m →
      m.data = .recovery codes → code ∉ codes →
      verify_recovery_code st code now = .ok (st, false)) ∧
    (∀ m qas, hget st.methods "questions" = some m →
      m.data = .questions qas →
      answers.length ≠ qas.length →
      verify_security_questions st answers now = .ok (st, false)) ∧
    (∀ m qas, hget st.methods "questions" = some m →
      m.data = .questions qas →
      (answers.zip (qas.map (·.2))).all
        (fun p => normAnswer p.1 == normAnswer p.2) = false →
      verify_security_questions st answers now = .ok (st, false)) ∧
    (∀ stored e, st.email = some (stored, e) → stored ≠ code →
      verify_email_code st code now = .ok (st, false)) := by
  obtain ⟨hwt, hwr, hwq⟩ := hwf
  refine ⟨?_, ?_, ?_, ?_, ?_, ?_, ?_, ?_, ?_⟩
  · rcases hmt : hget st.methods "totp" with _ | m
    · simp [verify_totp, hmt, isOk_ok]
    · rcases hwt m hmt with ⟨s, hs⟩
      by_cases he : m.enabled
      · simp only [verify_totp, hmt, hs, he, Bool.not_true,
          Bool.false_eq_true, if_false]
        exact isOk_ite _ _ _ rfl rfl
      · have he2 : m.enabled = false := by
          revert he; cases m.enabled <;> simp
        simp [verify_totp, hmt, hs, he2, isOk_ok]
  · rcases hmt : hget st.methods "recovery" with _ | m
    · simp [verify_recovery_code, hmt, isOk_ok]
    · rcases hwr m hmt with ⟨cs, hs⟩
      by_cases he : m.enabled
      · simp only [verify_recovery_code, hmt, hs, he, Bool.not_true,
          Bool.false_eq_true, if_false]
        exact isOk_ite _ _ _ rfl rfl
      · have he2 : m.enabled = false := by
          revert he; cases m.enabled <;> simp
        simp [verify_recovery_code, hmt, hs, he2, isOk_ok]
  · rcases hmt : hget st.methods "questions" with _ | m
    · simp [verify_security_questions, hmt, isOk_ok]
    · rcases hwq m hmt with ⟨qs, hs⟩
      by_cases he : m.enabled
      · simp only [verify_security_questions, hmt, hs, he, Bool.not_true,
          Bool.false_eq_true, if_false]
        exact isOk_ite _ _ _ rfl (isOk_ite _ _ _ rfl rfl)
      · have he2 : m.enabled = false := by
          revert he; cases m.enabled <;> simp
        simp [verify_security_questions, hmt, hs, he2, isOk_ok]
  · rcases hme : st.email with _ | p
    · simp [verify_email_code, hme, isOk_ok]
    · rcases p with ⟨stored, e⟩
      by_cases hlt : now < e <;> simp [verify_email_code, hme, hlt, isOk_ok]
  · intro m secret hm hdata htv
    by_cases he : m.enabled <;> simp [verify_totp, hm, hdata, htv, he]
  · intro m codes hm hdata hnm
    by_cases he : m.enabled <;>
      simp [verify_recovery_code, hm, hdata, hnm, he]
  · intro m qas hm hdata hlen
    by_cases he : m.enabled <;>
      simp [verify_security_questions, hm, hdata, he] <;>
      intro h <;> exact absurd h (by simpa using hlen)
  · intro m qas hm hdata hall
    by_cases he : m.enabled
    · by_cases hlen : answers.length = (qas.map (·.2)).length <;>
        simp [verify_security_questions, hm, hdata, he, hlen, hall]
    · simp [verify_security_questions, hm, hdata, he]
  · intro stored e hse hne
    have hb : (stored == code) = false := beq_eq_false_iff_ne.mpr hne
    by_cases hlt : now < e <;> simp [verify_email_code, hse, hlt, hb]

/-- Witness for C4_verify_never_raises at a concrete state holding only an
email challenge code, probed with a non-matching response. -/
theorem C4_verify_never_raises_witness :
    SUWF (StepUpState.mk [] (some ("E", 100))) ∧
    ((verify_totp (fun _ _ => false) (StepUpState.mk [] (some ("E", 100)))
        "wrong" 0).isOk = true ∧
    (verify_recovery_code (StepUpState.mk [] (some ("E", 100)))
        "wrong" 0).isOk = true ∧
    (verify_security_questions (StepUpState.mk [] (some ("E", 100)))
        ["x"] 0).isOk = true ∧
    (verify_email_code (StepUpState.mk [] (some ("E", 100)))
        "wrong" 0).isOk = true ∧
    (∀ m secret,
      hget (StepUpState.mk [] (some ("E", 100))).methods "totp" = some m →
      m.data = .totp secret → (fun (_ _ : String) => false) secret "wrong" = false →
      verify_totp (fun _ _ => false) (StepUpState.mk [] (some ("E", 100)))
        "wrong" 0 = .ok (StepUpState.mk [] (some ("E", 100)), false)) ∧
    (∀ m codes,
      hget (StepUpState.mk [] (some ("E", 100))).methods "recovery" = some m →
      m.data = .recovery codes → "wrong" ∉ codes →
      verify_recovery_code (StepUpState.mk [] (some ("E", 100)))
        "wrong" 0 = .ok (StepUpState.mk [] (some ("E", 100)), false)) ∧
    (∀ m qas,
      hget (StepUpState.mk [] (some ("E", 100))).methods "questions" = some m →
      m.data = .questions qas →
      (["x"] : List String).length ≠ qas.length →
      verify_security_questions (StepUpState.mk [] (some ("E", 100)))
        ["x"] 0 = .ok (StepUpState.mk [] (some ("E", 100)), false)) ∧
    (∀ m qas,
      hget (StepUpState.mk [] (some ("E", 100))).methods "questions" = some m →
      m.data = .questions qas →
      ((["x"] : List String).zip (qas.map (·.2))).all
        (fun p => normAnswer p.1 == normAnswer p.2) = false →
      verify_security_questions (StepUpState.mk [] (some ("E", 100)))
        ["x"] 0 = .ok (StepUpState.mk [] (some ("E", 100)), false)) ∧
    (∀ stored e,
      (StepUpState.mk [] (some ("E", 100))).email = some (stored, e) →
      stored ≠ "wrong" →
      verify_email_code (StepUpState.mk [] (some ("E", 100)))
        "wrong" 0 = .ok (StepUpState.mk [] (some ("E", 100)), false))) :=
  ⟨⟨fun m hm => by simp [hget, List.find?] at hm,
    fun m hm => by simp [hget, List.find?] at hm,
    fun m hm => by simp [hget, List.find?] at hm⟩,
   C4_verify_never_raises (fun _ _ => false)
     (StepUpState.mk [] (some ("E", 100))) "wrong" ["x"] 0
     ⟨fun m hm => by simp [hget, List.find?] at hm,
      fun m hm => by simp [hget, List.find?] at hm,
      fun m hm => by simp [hget, List.find?] at hm⟩⟩

/-- Claim C8 counterexample: an email-challenge verification can succeed
while the methods registry is empty, so no stored method's last_used is
updated (the state is returned unchanged). -/
theorem C8_email_success_no_method :
    verify_email_code (StepUpState.mk [] (some ("X", 100))) "X" 0 =
      .ok (StepUpState.mk [] (some ("X", 100)), true) ∧
    (StepUpState.mk [] (some ("X", 100))).methods = [] := by
  exact ⟨rfl, rfl⟩

/-- Claim C8 (amended): a successful one-time-code, recovery-code or
security-question verification stores the method with last_used set to the
verification instant; a successful email-challenge verification updates no
method record at all (the state is returned unchanged). -/
theorem C8_last_used_updates (tv : String → String → Bool) :
    (∀ st c now st2, verify_totp tv st c now = .ok (st2, true) →
      ∃ m, hget st2.methods "totp" = some m ∧ m.last_used = some now) ∧
    (∀ st c now st2, verify_recovery_code st c now = .ok (st2, true) →
      ∃ m, hget st2.methods "recovery" = some m ∧ m.last_used = some now) ∧
    (∀ st ans now st2,
      verify_security_questions st ans now = .ok (st2, true) →
      ∃ m, hget st2.methods "questions" = some m ∧ m.last_used = some now) ∧
    (∀ st c now st2 b, verify_email_code st c now = .ok (st2, b) →
      st2 = st) := by
  refine ⟨?_, ?_, ?_, ?_⟩
  · intro st c now st2 hok
    simp only [verify_totp] at hok
    split at hok
    · simp at hok
    · split at hok
      · simp at hok
      · split at hok
        · split at hok
          · simp only [Except.ok.injEq, Prod.mk.injEq] at hok
            rw [← hok.1]
            exact ⟨_, hget_hsetF_same _ _ _, rfl⟩
          · simp at hok
        · simp at hok
  · intro st c now st2 hok
    simp only [verify_recovery_code] at hok
    split at hok
    · simp at hok
    · split at hok
      · simp at hok
      · split at hok
        · split at hok
          · simp only [Except.ok.injEq, Prod.mk.injEq] at hok
            rw [← hok.1]
            exact ⟨_, hget_hsetF_same _ _ _, rfl⟩
          · simp at hok
        · simp at hok
  · intro st ans now st2 hok
    simp only [verify_security_questions] at hok
    split at hok
    · simp at hok
    · split at hok
      · simp at hok
      · split at hok
        · split at hok
          · simp at hok
          · split at hok
            · simp only [Except.ok.injEq, Prod.mk.injEq] at hok
              rw [← hok.1]
              exact ⟨_, hget_hsetF_same _ _ _, rfl⟩
            · simp at hok
        · simp at hok
  · intro st c now st2 b hok
    simp only [verify_email_code] at hok
    split at hok
    · simp only [Except.ok.injEq, Prod.mk.injEq] at hok
      exact hok.1.symm
    · split at hok <;>
        simp only [Except.ok.injEq, Prod.mk.injEq] at hok <;>
        exact hok.1.symm

/-- Witness for C8_last_used_updates: concrete successful verifications of
each kind. -/
theorem C8_last_used_updates_witness :
    (verify_totp (fun _ _ => true)
        (StepUpState.mk [("totp", ⟨"totp", true, .totp "S", none⟩)] none)
        "c" 7 =
      .ok (StepUpState.mk [("totp", ⟨"totp", true, .totp "S", some 7⟩)]
        none, true)) ∧
    (∃ m, hget (StepUpState.mk
        [("totp", ⟨"totp", true, .totp "S", some 7⟩)] none).methods
        "totp" = some m ∧ m.last_used = some 7) ∧
    (verify_recovery_code
        (StepUpState.mk
          [("recovery", ⟨"recovery", true, .recovery ["c"], none⟩)] none)
        "c" 7 =
      .ok (StepUpState.mk
        [("recovery", ⟨"recovery", true, .recovery [], some 7⟩)] none,
        true)) ∧
    (∃ m, hget (StepUpState.mk
        [("recovery", ⟨"recovery", true, .recovery [], some 7⟩)]
        none).methods "recovery" = some m ∧ m.last_used = some 7) ∧
    (verify_security_questions
        (StepUpState.mk
          [("questions",
            ⟨"questions", true, .questions [("q", "a")], none⟩)] none)
        ["a"] 7 =
      .ok (StepUpState.mk
        [("questions", ⟨"questions", true, .questions [("q", "a")],
          some 7⟩)] none, true)) ∧
    (∃ m, hget (StepUpState.mk
        [("questions", ⟨"questions", true, .questions [("q", "a")],
          some 7⟩)] none).methods "questions" = some m ∧
      m.last_used = some 7) ∧
    (verify_email_code (StepUpState.mk [] (some ("X", 100))) "X" 0 =
      .ok (StepUpState.mk [] (some ("X", 100)), true)) ∧
    (StepUpState.mk [] (some ("X", 100)) : StepUpState) =
      StepUpState.mk [] (some ("X", 100)) :=
  ⟨rfl,
   (C8_last_used_updates (fun _ _ => true)).1
     (StepUpState.mk [("totp", ⟨"totp", true, .totp "S", none⟩)] none)
     "c" 7
     (StepUpState.mk [("totp", ⟨"totp", true, .totp "S", some 7⟩)] none)
     rfl,
   rfl,
   (C8_last_used_updates (fun _ _ => true)).2.1
     (StepUpState.mk
       [("recovery", ⟨"recovery", true, .recovery ["c"], none⟩)] none)
     "c" 7
     (StepUpState.mk
       [("recovery", ⟨"recovery", true, .recovery [], some 7⟩)] none)
     rfl,
   rfl,
   (C8_last_used_updates (fun _ _ => true)).2.2.1
     (StepUpState.mk
       [("questions", ⟨"questions", true, .questions [("q", "a")], none⟩)]
       none)
     ["a"] 7
     (StepUpState.mk
       [("questions", ⟨"questions", true, .questions [("q", "a")], some 7⟩)]
       none)
     (by rfl),
   rfl,
   (C8_last_used_updates (fun _ _ => true)).2.2.2
     (StepUpState.mk [] (some ("X", 100))) "X" 0
     (StepUpState.mk [] (some ("X", 100))) true rfl⟩

lemma mem_hsetF {α : Type} {l : List (String × α)} {k : String} {v : α}
    {q : String × α} (h : q ∈ hsetF l k v) : q.1 = k ∨ q ∈ l := by
  induction l with
  | nil =>
      simp [hsetF] at h
      left
      rw [h]
  | cons p t ih =>
      by_cases hk : p.1 = k
      · have hk1 : (p.1 == k) = true := by simp [hk]
        simp only [hsetF, hk1, if_true] at h
        rcases List.mem_cons.mp h with h1 | h1
        · left; rw [h1]
        · right; exact List.mem_cons_of_mem _ h1
      · have hk1 : (p.1 == k) = false := by simp [hk]
        simp only [hsetF, hk1, Bool.false_eq_true, if_false] at h
        rcases List.mem_cons.mp h with h1 | h1
        · right; rw [h1]; exact List.mem_cons_self _ _
        · rcases ih h1 with h2 | h2
          · left; exact h2
          · right; exact List.mem_cons_of_mem _ h2

lemma verify_totp_state (tv : String → String → Bool) (st s2 : StepUpState)
    (c : String) (now : Nat) (b : Bool)
    (h : verify_totp tv st c now = .ok (s2, b)) :
    s2 = st ∨
    ∃ m2, s2 = { st with methods := hsetF st.methods "totp" m2 } := by
  simp only [verify_totp] at h
  split at h
  · simp only [Except.ok.injEq, Prod.mk.injEq] at h
    exact Or.inl h.1.symm
  · split at h
    · simp only [Except.ok.injEq, Prod.mk.injEq] at h
      exact Or.inl h.1.symm
    · split at h
      · split at h
        · simp only [Except.ok.injEq, Prod.mk.injEq] at h
          exact Or.inr ⟨_, h.1.symm⟩
        · simp only [Except.ok.injEq, Prod.mk.injEq] at h
          exact Or.inl h.1.symm
      · simp at h

lemma verify_recovery_state (st s2 : StepUpState) (c : String) (now : Nat)
    (b : Bool) (h : verify_recovery_code st c now = .ok (s2, b)) :
    s2 = st ∨
    ∃ m2, s2 = { st with methods := hsetF st.methods "recovery" m2 } := by
  simp only [verify_recovery_code] at h
  split at h
  · simp only [Except.ok.injEq, Prod.mk.injEq] at h
    exact Or.inl h.1.symm
  · split at h
    · simp only [Except.ok.injEq, Prod.mk.injEq] at h
      exact Or.inl h.1.symm
    · split at h
      · split at h
        · simp only [Except.ok.injEq, Prod.mk.injEq] at h
          exact Or.inr ⟨_, h.1.symm⟩
        · simp only [Except.ok.injEq, Prod.mk.injEq] at h
          exact Or.inl h.1.symm
      · simp at h

lemma verify_questions_state (st s2 : StepUpState) (ans : List String)
    (now : Nat) (b : Bool)
    (h : verify_security_questions st ans now = .ok (s2, b)) :
    s2 = st ∨
    ∃ m2, s2 = { st with methods := hsetF st.methods "questions" m2 } := by
  simp only [verify_security_questions] at h
  split at h
  · simp only [Except.ok.injEq, Prod.mk.injEq] at h
    exact Or.inl h.1.symm
  · split at h
    · simp only [Except.ok.injEq, Prod.mk.injEq] at h
      exact Or.inl h.1.symm
    · split at h
      · split at h
        · simp only [Except.ok.injEq, Prod.mk.injEq] at h
          exact Or.inl h.1.symm
        · split at h
          · simp only [Except.ok.injEq, Prod.mk.injEq] at h
            exact Or.inr ⟨_, h.1.symm⟩
          · simp only [Except.ok.injEq, Prod.mk.injEq] at h
            exact Or.inl h.1.symm
      · simp at h

lemma verify_email_state (st s2 : StepUpState) (c : String) (now : Nat)
    (b : Bool) (h : verify_email_code st c now = .ok (s2, b)) : s2 = st := by
  simp only [verify_email_code] at h
  split at h
  · simp only [Except.ok.injEq, Prod.mk.injEq] at h
    exact h.1.symm
  · split at h <;>
      simp only [Except.ok.injEq, Prod.mk.injEq] at h <;>
      exact h.1.symm

lemma sureach_keys (s : StepUpState) (h : SUReach s) :
    ∀ p ∈ s.methods,
      p.1 = "totp" ∨ p.1 = "recovery" ∨ p.1 = "questions" := by
  induction h with
  | init => simp
  | setupTotp s secret hs ih =>
      intro p hp
      rcases mem_hsetF hp with h1 | h1
      · exact Or.inl h1
      · exact ih p h1
  | verifyTotp tv s s2 c now b hs heq ih =>
      rcases verify_totp_state tv s s2 c now b heq with rfl | ⟨m2, rfl⟩
      · exact ih
      · intro p hp
        rcases mem_hsetF hp with h1 | h1
        · exact Or.inl h1
        · exact ih p h1
  | genRecovery s codes hs ih =>
      intro p hp
      rcases mem_hsetF hp with h1 | h1
      · exact Or.inr (Or.inl h1)
      · exact ih p h1
  | verifyRecovery s s2 c now b hs heq ih =>
      rcases verify_recovery_state s s2 c now b heq with rfl | ⟨m2, rfl⟩
      · exact ih
      · intro p hp
        rcases mem_hsetF hp with h1 | h1
        · exact Or.inr (Or.inl h1)
        · exact ih p h1
  | setupQuestions s qas hs ih =>
      intro p hp
      rcases mem_hsetF hp with h1 | h1
      · exact Or.inr (Or.inr h1)
      · exact ih p h1
  | verifyQuestions s s2 ans now b hs heq ih =>
      rcases verify_questions_state s s2 ans now b heq with rfl | ⟨m2, rfl⟩
      · exact ih
      · intro p hp
        rcases mem_hsetF hp with h1 | h1
        · exact Or.inr (Or.inr h1)
        · exact ih p h1
  | sendEmail s code now hs ih => exact ih
  | verifyEmail s s2 c now b hs heq ih =>
      rcases (verify_email_state s s2 c now b heq).symm with rfl
      exact ih

/-- Claim C10: over every reachable step-up state, get_available_methods
never lists the email challenge: the methods registry only ever holds the
totp, recovery and questions fields, the email code living under its own
key; in particular a user whose only configured method is the email
challenge has an empty available-methods list. -/
theorem C10_email_never_available (s : StepUpState) (h : SUReach s) :
    "email" ∉ get_available_methods s ∧
    (s.methods = [] → get_available_methods s = []) := by
  constructor
  · intro hmem
    rcases List.mem_map.mp hmem with ⟨p, hp, hp1⟩
    have hpm : p ∈ s.methods := List.mem_of_mem_filter hp
    rcases sureach_keys s h p hpm with h1 | h1 | h1 <;>
      rw [hp1] at h1 <;> exact absurd h1 (by decide)
  · intro hnil
    simp [get_available_methods, hnil]

/-- Witness for C10_email_never_available at the reachable state whose only
configuration is a pending email challenge code. -/
theorem C10_email_never_available_witness :
    "email" ∉ get_available_methods (StepUpState.mk [] (some ("c", 300))) ∧
    ((StepUpState.mk [] (some ("c", 300))).methods = [] →
      get_available_methods (StepUpState.mk [] (some ("c", 300))) = []) :=
  C10_email_never_available (send_verification_email ⟨[], none⟩ "c" 0)
    (SUReach.sendEmail ⟨[], none⟩ "c" 0 SUReach.init)

lemma location_score_bounds (c : Option LocationD) (k : List LocationD) :
    0 ≤ calculate_location_score c k ∧ calculate_location_score c k ≤ 1 := by
  cases c <;> simp only [calculate_location_score]
  · norm_num
  · split_ifs <;> norm_num

lemma history_score_bounds (d : DeviceInfo) (t now : Nat) :
    0 ≤ calculate_history_score d t now ∧
    calculate_history_score d t now ≤ 1 := by
  simp only [calculate_history_score]
  split_ifs <;> norm_num

lemma pattern_score_bounds (parse : String → UAInfo) (ua : String)
    (d : DeviceInfo) :
    0 ≤ calculate_pattern_score parse ua d ∧
    calculate_pattern_score parse ua d ≤ 1 := by
  simp only [calculate_pattern_score]
  split_ifs <;> norm_num

lemma weighted_score_bounds (ls hs ps : ℚ) (h1 : 0 ≤ ls) (h2 : ls ≤ 1)
    (h3 : 0 ≤ hs) (h4 : hs ≤ 1) (h5 : 0 ≤ ps) (h6 : ps ≤ 1) :
    0 ≤ ls * location_weight + hs * history_weight + ps * pattern_weight ∧
    ls * location_weight + hs * history_weight + ps * pattern_weight ≤ 1 := by
  unfold location_weight history_weight pattern_weight
  constructor <;> nlinarith

lemma mixed_score_bounds (loc : Option LocationD) (K : List LocationD)
    (D : DeviceInfo) (T now : Nat) (parse : String → UAInfo) (ua : String) :
    0 ≤ calculate_location_score loc K * location_weight +
        calculate_history_score D T now * history_weight +
        calculate_pattern_score parse ua D * pattern_weight ∧
    calculate_location_score loc K * location_weight +
        calculate_history_score D T now * history_weight +
        calculate_pattern_score parse ua D * pattern_weight ≤ 1 := by
  obtain ⟨a1, a2⟩ := location_score_bounds loc K
  obtain ⟨b1, b2⟩ := history_score_bounds D T now
  obtain ⟨c1, c2⟩ := pattern_score_bounds parse ua D
  exact weighted_score_bounds _ _ _ a1 a2 b1 b2 c1 c2

lemma process_device_snd_inv (hash : String → String)
    (parse : String → UAInfo) (st : DeviceState) (r : RequestSig)
    (now : Nat) :
    0 ≤ (process_device hash parse st r now).2.trust_score ∧
    (process_device hash parse st r now).2.trust_score ≤ 1 ∧
    ((process_device hash parse st r now).2.is_trusted = true ↔
      trust_threshold ≤ (process_device hash parse st r now).2.trust_score) := by
  rcases hfp : st.info (generate_fingerprint hash r) with _ | d0
  · simp only [process_device, hfp]
    refine ⟨by norm_num, by norm_num, ?_⟩
    simp only [trust_threshold]
    norm_num
  · simp only [process_device, hfp]
    refine ⟨(mixed_score_bounds _ _ _ _ _ _ _).1,
      (mixed_score_bounds _ _ _ _ _ _ _).2, ?_⟩
    simp [decide_eq_true_eq]

lemma process_device_info (hash : String → String)
    (parse : String → UAInfo) (st : DeviceState) (r : RequestSig)
    (now : Nat) (fp2 : String) :
    (process_device hash parse st r now).1.info fp2 =
      if fp2 = generate_fingerprint hash r
      then some (process_device hash parse st r now).2
      else st.info fp2 := by
  rcases hfp : st.info (generate_fingerprint hash r) with _ | d0 <;>
    simp [process_device, hfp, updFn]

/-- Claim C6: over every reachable device state, every stored device record
has a trust score inside the unit interval with is_trusted holding exactly
when the score reaches the 0.7 threshold, and every record returned by
process_device satisfies the same invariant. -/
theorem C6_trust_score_invariant (st : DeviceState) (h : DReach st) :
    (∀ fp d, st.info fp = some d →
      0 ≤ d.trust_score ∧ d.trust_score ≤ 1 ∧
      (d.is_trusted = true ↔ trust_threshold ≤ d.trust_score)) ∧
    (∀ (hash : String → String) (parse : String → UAInfo) (r : RequestSig)
        (now : Nat),
      0 ≤ (process_device hash parse st r now).2.trust_score ∧
      (process_device hash parse st r now).2.trust_score ≤ 1 ∧
      ((process_device hash parse st r now).2.is_trusted = true ↔
        trust_threshold ≤ (process_device hash parse st r now).2.trust_score)) := by
  refine ⟨?_, fun hash parse r now => process_device_snd_inv hash parse st r now⟩
  induction h with
  | init => intro fp d hd; simp at hd
  | process hash parse s r now hs ih =>
      intro fp d hd
      rw [process_device_info] at hd
      by_cases hf : fp = generate_fingerprint hash r
      · rw [if_pos hf] at hd
        have hd2 := Option.some.inj hd
        rw [← hd2]
        exact process_device_snd_inv hash parse s r now
      · rw [if_neg hf] at hd
        exact ih fp d hd
  | markTrusted s fp0 hs ih =>
      intro fp d hd
      rcases hg : get_device_info s fp0 with _ | d0
      · simp only [mark_device_trusted, hg] at hd
        exact ih fp d hd
      · simp only [mark_device_trusted, hg] at hd
        by_cases hf : fp = fp0
        · rw [hf, updFn_same] at hd
          have hd2 := Option.some.inj hd
          rw [← hd2]
          refine ⟨by norm_num, by norm_num, ?_⟩
          simp only [trust_threshold]
          norm_num
        · rw [show (updFn s.info fp0
              (some { d0 with is_trusted := true, trust_score := 1.0 })) fp
              = s.info fp from updFn_other _ _ _ _ hf] at hd
          exact ih fp d hd
  | markUntrusted s fp0 hs ih =>
      intro fp d hd
      rcases hg : get_device_info s fp0 with _ | d0
      · simp only [mark_device_untrusted, hg] at hd
        exact ih fp d hd
      · simp only [mark_device_untrusted, hg] at hd
        by_cases hf : fp = fp0
        · rw [hf, updFn_same] at hd
          have hd2 := Option.some.inj hd
          rw [← hd2]
          refine ⟨by norm_num, by norm_num, ?_⟩
          simp only [trust_threshold]
          norm_num
        · rw [show (updFn s.info fp0
              (some { d0 with is_trusted := false, trust_score := 0.0 })) fp
              = s.info fp from updFn_other _ _ _ _ hf] at hd
          exact ih fp d hd

/-- Witness for C6_trust_score_invariant at the state reached by one
process_device call on a fresh user. -/
theorem C6_trust_score_invariant_witness :
    ((process_device (fun _ => "F") (fun _ => ⟨"B", "O", "D"⟩)
        ⟨fun _ => none, none, none⟩ ⟨"ua", "1.2.3.4", "a", "al", "ae", "/p"⟩
        0).1.info "F" =
      some ⟨"F", "ua", "1.2.3.4", none, 0, 0, 0.5, false⟩) ∧
    (0 ≤ (⟨"F", "ua", "1.2.3.4", none, 0, 0, 0.5, false⟩ :
        DeviceInfo).trust_score ∧
      (⟨"F", "ua", "1.2.3.4", none, 0, 0, 0.5, false⟩ :
        DeviceInfo).trust_score ≤ 1 ∧
      ((⟨"F", "ua", "1.2.3.4", none, 0, 0, 0.5, false⟩ :
          DeviceInfo).is_trusted = true ↔
        trust_threshold ≤ (⟨"F", "ua", "1.2.3.4", none, 0, 0, 0.5, false⟩ :
          DeviceInfo).trust_score)) :=
  ⟨rfl,
   (C6_trust_score_invariant
     (process_device (fun _ => "F") (fun _ => ⟨"B", "O", "D"⟩)
       ⟨fun _ => none, none, none⟩ ⟨"ua", "1.2.3.4", "a", "al", "ae", "/p"⟩
       0).1
     (DReach.process (fun _ => "F") (fun _ => ⟨"B", "O", "D"⟩)
       ⟨fun _ => none, none, none⟩ ⟨"ua", "1.2.3.4", "a", "al", "ae", "/p"⟩
       0 DReach.init)).1
     "F" ⟨"F", "ua", "1.2.3.4", none, 0, 0, 0.5, false⟩ rfl⟩

/-- Claim C1: the code contradicts the claim on the new-fingerprint path.
With three prior logins recorded (total_logins = 3), observing a device
with a new fingerprint rewrites the counter to 1 with a plain hash set
instead of incrementing it to 4, while observing the known fingerprint
does increment it atomically to 4. -/
theorem C1_counter_reset_on_new_fingerprint :
    (DeviceState.mk
      (updFn (fun _ => none) "fpA"
        (some ⟨"fpA", "uaA", "1.2.3.4", none, 0, 0, 0.5, false⟩))
      none (some 3)).total_logins = some 3 ∧
    (DeviceState.mk
      (updFn (fun _ => none) "fpA"
        (some ⟨"fpA", "uaA", "1.2.3.4", none, 0, 0, 0.5, false⟩))
      none (some 3)).info "F" = none ∧
    (process_device (fun _ => "F") (fun _ => ⟨"B", "O", "D"⟩)
      (DeviceState.mk
        (updFn (fun _ => none) "fpA"
          (some ⟨"fpA", "uaA", "1.2.3.4", none, 0, 0, 0.5, false⟩))
        none (some 3))
      ⟨"uaB", "2.3.4.5", "a", "al", "ae", "/p"⟩
      100).1.total_logins = some 1 ∧
    (process_device (fun _ => "fpA") (fun _ => ⟨"B", "O", "D"⟩)
      (DeviceState.mk
        (updFn (fun _ => none) "fpA"
          (some ⟨"fpA", "uaA", "1.2.3.4", none, 0, 0, 0.5, false⟩))
        none (some 3))
      ⟨"uaB", "2.3.4.5", "a", "al", "ae", "/p"⟩
      100).1.total_logins = some 4 :=
  ⟨rfl, rfl, rfl, rfl⟩

/-- Claim C2 counterexample: a brute-force-blocked request is answered with
the 429 short-circuit response carrying no hardening headers at all. -/
theorem C2_429_has_no_hardening_headers :
    (dispatch [] (fun _ => none) (fun _ => "F") (fun _ => ⟨"B", "O", "D"⟩)
      (SysState.mk
        (updFn (fun _ => none) (bfKey "9.9.9.9") (some (5, some 1000)))
        (fun _ => ⟨fun _ => none, none, none⟩) (fun _ => ⟨[], none⟩))
      500 ⟨"ua", "9.9.9.9", "a", "al", "ae", "/p"⟩
      (fun _ => ⟨200, fun _ => none⟩)).2 =
      HttpResponse.mk 429 (fun _ => none) ∧
    (HttpResponse.mk 429 (fun _ => none)).headers "X-Content-Type-Options" =
      none ∧
    (HttpResponse.mk 429 (fun _ => none)).headers "X-Frame-Options" = none ∧
    (HttpResponse.mk 429 (fun _ => none)).headers "X-XSS-Protection" =
      none ∧
    (HttpResponse.mk 429 (fun _ => none)).headers
      "Strict-Transport-Security" = none :=
  ⟨rfl, rfl, rfl, rfl, rfl⟩

/-- Claim C2 (amended): the hardening header set is attached exactly on the
pass-through path: whenever the request path is not excluded, the
brute-force check passes and any authenticated device check passes, the
dispatched response is the downstream response with the four hardening
headers set. -/
theorem C2_headers_on_pass_through (exclude_paths : List String)
    (getUser : RequestSig → Option String) (hash : String → String)
    (parse : String → UAInfo) (sys : SysState) (now : Nat) (r : RequestSig)
    (call_next : RequestSig → HttpResponse)
    (hsp : should_process exclude_paths r = true)
    (hbf : check_brute_force sys now r (getUser r) = none)
    (hdev : ∀ u, getUser r = some u →
      (check_device hash parse sys now r u).2 = none) :
    (dispatch exclude_paths getUser hash parse sys now r call_next).2 =
      addSecurityHeaders (call_next r) ∧
    (dispatch exclude_paths getUser hash parse sys now r
      call_next).2.headers "X-Content-Type-Options" = some "nosniff" ∧
    (dispatch exclude_paths getUser hash parse sys now r
      call_next).2.headers "X-Frame-Options" = some "DENY" ∧
    (dispatch exclude_paths getUser hash parse sys now r
      call_next).2.headers "X-XSS-Protection" = some "1; mode=block" ∧
    (dispatch exclude_paths getUser hash parse sys now r
      call_next).2.headers "Strict-Transport-Security" =
      some "max-age=31536000; includeSubDomains" := by
  have hres : (dispatch exclude_paths getUser hash parse sys now r
      call_next).2 = addSecurityHeaders (call_next r) := by
    rcases hu : getUser r with _ | u
    · simp [dispatch, hsp, hu, hbf, hu ▸ hbf]
    · have hd := hdev u hu
      simp [dispatch, hsp, hu, hu ▸ hbf, hd]
  refine ⟨hres, ?_, ?_, ?_, ?_⟩ <;> rw [hres] <;>
    simp [addSecurityHeaders, setHeader, updFn]

/-- Witness for C2_headers_on_pass_through at a concrete anonymous request
with clean brute-force state. -/
theorem C2_headers_on_pass_through_witness :
    should_process [] ⟨"ua", "9.9.9.9", "a", "al", "ae", "/p"⟩ = true ∧
    check_brute_force
      (SysState.mk (fun _ => none) (fun _ => ⟨fun _ => none, none, none⟩)
        (fun _ => ⟨[], none⟩)) 0
      ⟨"ua", "9.9.9.9", "a", "al", "ae", "/p"⟩
      (none : Option String) = none ∧
    ((dispatch [] (fun _ => none) (fun _ => "F") (fun _ => ⟨"B", "O", "D"⟩)
      (SysState.mk (fun _ => none) (fun _ => ⟨fun _ => none, none, none⟩)
        (fun _ => ⟨[], none⟩))
      0 ⟨"ua", "9.9.9.9", "a", "al", "ae", "/p"⟩
      (fun _ => ⟨200, fun _ => none⟩)).2 =
      addSecurityHeaders (HttpResponse.mk 200 (fun _ => none)) ∧
    (dispatch [] (fun _ => none) (fun _ => "F") (fun _ => ⟨"B", "O", "D"⟩)
      (SysState.mk (fun _ => none) (fun _ => ⟨fun _ => none, none, none⟩)
        (fun _ => ⟨[], none⟩))
      0 ⟨"ua", "9.9.9.9", "a", "al", "ae", "/p"⟩
      (fun _ => ⟨200, fun _ => none⟩)).2.headers "X-Content-Type-Options" =
      some "nosniff" ∧
    (dispatch [] (fun _ => none) (fun _ => "F") (fun _ => ⟨"B", "O", "D"⟩)
      (SysState.mk (fun _ => none) (fun _ => ⟨fun _ => none, none, none⟩)
        (fun _ => ⟨[], none⟩))
      0 ⟨"ua", "9.9.9.9", "a", "al", "ae", "/p"⟩
      (fun _ => ⟨200, fun _ => none⟩)).2.headers "X-Frame-Options" =
      some "DENY" ∧
    (dispatch [] (fun _ => none) (fun _ => "F") (fun _ => ⟨"B", "O", "D"⟩)
      (SysState.mk (fun _ => none) (fun _ => ⟨fun _ => none, none, none⟩)
        (fun _ => ⟨[], none⟩))
      0 ⟨"ua", "9.9.9.9", "a", "al", "ae", "/p"⟩
      (fun _ => ⟨200, fun _ => none⟩)).2.headers "X-XSS-Protection" =
      some "1; mode=block" ∧
    (dispatch [] (fun _ => none) (fun _ => "F") (fun _ => ⟨"B", "O", "D"⟩)
      (SysState.mk (fun _ => none) (fun _ => ⟨fun _ => none, none, none⟩)
        (fun _ => ⟨[], none⟩))
      0 ⟨"ua", "9.9.9.9", "a", "al", "ae", "/p"⟩
      (fun _ => ⟨200, fun _ => none⟩)).2.headers "Strict-Transport-Security" =
      some "max-age=31536000; includeSubDomains") :=
  ⟨rfl, rfl,
   C2_headers_on_pass_through [] (fun _ => none) (fun _ => "F")
     (fun _ => ⟨"B", "O", "D"⟩)
     (SysState.mk (fun _ => none) (fun _ => ⟨fun _ => none, none, none⟩)
       (fun _ => ⟨[], none⟩))
     0 ⟨"ua", "9.9.9.9", "a", "al", "ae", "/p"⟩
     (fun _ => ⟨200, fun _ => none⟩) rfl rfl
     (fun u h => Option.noConfusion h)⟩
